import Mathlib

/-!
Shallow embedding of the ProtectedValue repository (`protected_value.hpp` and the
example program): a value container `Protected<T>` guarded by a
`std::shared_mutex`, with a shared-read RAII guard `ConstPtr<T>` and an
exclusive-write RAII guard `MutablePtr<T>`.

Modelling conventions:
  * `std::shared_mutex` is modelled by `LockState` (a count of shared holders
    and an exclusive-holder flag).  An acquisition that would block, and a
    release that the caller does not hold (undefined behaviour in C++), are
    both modelled as `none`.
  * The payload pointers `const T* obj_` / `T* obj_` of the guards always
    either point at the container's `value_` or are null, so they are modelled
    by a `Bool` (`true` = points at the payload, `false` = `nullptr`); the
    pointee is recovered by pairing guard operations with the container state.
  * The guards also carry two ghost history flags (`movedFrom`, `bornNull`)
    that are not C++ members; they record how a guard value was produced and
    never influence the modelled code.
  * The example's `Point` has `double` members, but every value that occurs in
    the repository (`0`, `42`, `69`, `68`) is an integer represented exactly,
    so the fields are modelled as `Int`.
-/

set_option autoImplicit false

namespace ProtectedValue

/-- State of a `std::shared_mutex` (`using Mutex = std::shared_mutex;`, line 4
of `protected_value.hpp`): the number of shared (reader) holders and whether
an exclusive (writer) holder exists. -/
structure LockState where
  readers : Nat
  writer : Bool
deriving DecidableEq

/-- A freshly constructed mutex: no holders. -/
def LockState.unlocked : LockState := ⟨0, false⟩

/-- `mutex.lock_shared()`: blocks (here: `none`) while an exclusive holder
exists, otherwise adds one shared holder. -/
def lockShared (l : LockState) : Option LockState :=
  if l.writer then none else some ⟨l.readers + 1, l.writer⟩

/-- `mutex.lock()`: blocks (here: `none`) while any shared or exclusive holder
exists, otherwise acquires exclusively. -/
def lockExclusive (l : LockState) : Option LockState :=
  if l.writer = true ∨ l.readers ≠ 0 then none else some ⟨l.readers, true⟩

/-- `mutex.unlock_shared()`: releases one shared acquisition.  Calling it with
no shared holder is undefined behaviour in C++, modelled as `none`. -/
def unlockShared (l : LockState) : Option LockState :=
  if l.readers = 0 then none else some ⟨l.readers - 1, l.writer⟩

/-- `mutex.unlock()`: releases the exclusive acquisition.  Calling it without
holding exclusively is undefined behaviour in C++, modelled as `none`. -/
def unlockExclusive (l : LockState) : Option LockState :=
  if l.writer then some ⟨l.readers, false⟩ else none

/-- The container `Protected<T>` (lines 58–85): `mutable Mutex mutex_;` and
`T value_ = T();`. -/
structure Protected (T : Type) where
  mutex_ : LockState
  value_ : T
deriving DecidableEq

/-- `Protected() = default` (line 62): the member initializer `T value_ = T();`
value-initializes the payload; the mutex starts unlocked. -/
def Protected.defaultCtor (T : Type) [Inhabited T] : Protected T :=
  ⟨LockState.unlocked, default⟩

/-- `Protected(const T& value) : value_(value)` (lines 193–195): stores the
initial value with no locking. -/
def Protected.ofValue {T : Type} (value : T) : Protected T :=
  ⟨LockState.unlocked, value⟩

/-- `void Protected<T>::set(const T& value)` (lines 201–206): acquires the lock
exclusively via `std::unique_lock`, copy-assigns `value_ = value;`, and the
lock guard releases at end of scope. -/
def Protected.set {T : Type} (s : Protected T) (value : T) : Option (Protected T) :=
  (lockExclusive s.mutex_).bind fun l1 =>
    (unlockExclusive l1).map fun l2 => ⟨l2, value⟩

/-- The argument of the rvalue overload `set(T&& value)`: the value the caller
passes together with a ghost flag recording whether the caller's object was
moved out of (left in a moved-from state). -/
structure RValArg (T : Type) where
  val : T
  movedOut : Bool
deriving DecidableEq

/-- `void Protected<T>::set(T&& value)` (lines 208–213): acquires the lock
exclusively and executes `value_ = value;`.  Inside the body the parameter
`value` is a named rvalue reference, hence an lvalue, and there is no
`std::move`, so this is a copy assignment: the caller's argument is returned
unchanged (its `movedOut` flag is not set). -/
def Protected.setRval {T : Type} (s : Protected T) (value : RValArg T) :
    Option (Protected T × RValArg T) :=
  (lockExclusive s.mutex_).bind fun l1 =>
    (unlockExclusive l1).map fun l2 => (⟨l2, value.val⟩, value)

/-- `T Protected<T>::get() const` (lines 215–220): acquires the lock in shared
mode via `std::shared_lock`, returns `value_` by value (a copy), and the lock
guard releases at end of scope. -/
def Protected.get {T : Type} (s : Protected T) : Option (T × Protected T) :=
  (lockShared s.mutex_).bind fun l1 =>
    (unlockShared l1).map fun l2 => (s.value_, ⟨l2, s.value_⟩)

/-- `Protected<T>& Protected<T>::operator=(Protected<T>&& other)` (lines
222–228) as written: `mutex_ = std::move(other.mutex_); value_ =
std::move(other.value_);`.  Note that `std::shared_mutex` has a deleted
assignment operator, so the first statement is ill-formed C++ the moment this
member template is instantiated; the definition records the transfer the body
spells out. -/
def Protected.moveAssign {T : Type} (_a other : Protected T) : Protected T :=
  ⟨other.mutex_, other.value_⟩

/-- The shared-read guard `ConstPtr<T>` (lines 11–30): `const T* obj_` and
`Mutex& mutex_`, plus two ghost history flags (not C++ members). -/
structure ConstPtr where
  obj_ : Bool
  movedFrom : Bool
  bornNull : Bool
deriving DecidableEq

/-- The guard state produced by `ConstPtr(const T* obj, Mutex& mutex)` when
called with `obj = &value_`: a non-null payload pointer, no history. -/
def ConstPtr.fresh : ConstPtr := ⟨true, false, false⟩

/-- `ConstPtr<T> Protected<T>::getConstPtr() const` (lines 230–234) combined
with the guard constructor (lines 91–95): passes `&value_` (never null) and
calls `mutex_.lock_shared()`. -/
def Protected.getConstPtr {T : Type} (s : Protected T) : Option (ConstPtr × Protected T) :=
  (lockShared s.mutex_).map fun l1 => (ConstPtr.fresh, ⟨l1, s.value_⟩)

/-- `ConstPtr(ConstPtr&& other) : obj_(other.obj_), mutex_(other.mutex_)`
(lines 97–99): the target copies the payload pointer; the body is empty, so
the source's `obj_` is NOT nulled out.  Returns (target, source after the
move); the ghost flags record the move. -/
def ConstPtr.moveCtor (other : ConstPtr) : ConstPtr × ConstPtr :=
  (⟨other.obj_, false, !other.obj_⟩, { other with movedFrom := true })

/-- `ConstPtr<T>::operator bool() const` (lines 115–119): `obj_ != nullptr`. -/
def ConstPtr.boolOp (g : ConstPtr) : Bool := g.obj_

/-- `const T& ConstPtr<T>::operator*() const` (lines 127–131): `*obj_`;
dereferencing a null pointer is undefined behaviour (`none`). -/
def ConstPtr.deref {T : Type} (g : ConstPtr) (s : Protected T) : Option T :=
  if g.obj_ then some s.value_ else none

/-- `ConstPtr<T>::~ConstPtr()` (lines 109–113): calls `mutex_.unlock_shared()`
UNCONDITIONALLY — the guard's `obj_` is not consulted. -/
def ConstPtr.destroy {T : Type} (_g : ConstPtr) (s : Protected T) : Option (Protected T) :=
  (unlockShared s.mutex_).map fun l => ⟨l, s.value_⟩

/-- The exclusive-write guard `MutablePtr<T>` (lines 37–56): `T* obj_` and
`Mutex& mutex_`, plus the same ghost history flags. -/
structure MutablePtr where
  obj_ : Bool
  movedFrom : Bool
  bornNull : Bool
deriving DecidableEq

/-- The guard state produced by `MutablePtr(T* obj, Mutex& mutex)` when called
with `obj = &value_`. -/
def MutablePtr.fresh : MutablePtr := ⟨true, false, false⟩

/-- `MutablePtr<T> Protected<T>::getMutablePtr()` (lines 236–240) combined with
the guard constructor (lines 141–145): passes `&value_` and calls
`mutex_.lock()`. -/
def Protected.getMutablePtr {T : Type} (s : Protected T) : Option (MutablePtr × Protected T) :=
  (lockExclusive s.mutex_).map fun l1 => (MutablePtr.fresh, ⟨l1, s.value_⟩)

/-- `MutablePtr(MutablePtr&& other) : mutex_(other.mutex_)` with body
`std::swap(obj_, other.obj_)` (lines 147–151): `obj_` starts as `nullptr`
(member initializer, line 54), so after the swap the target holds the source's
pointer and the source's pointer is null. -/
def MutablePtr.moveCtor (other : MutablePtr) : MutablePtr × MutablePtr :=
  (⟨other.obj_, false, !other.obj_⟩, { other with obj_ := false, movedFrom := true })

/-- `MutablePtr<T>::operator bool() const` (lines 167–171). -/
def MutablePtr.boolOp (g : MutablePtr) : Bool := g.obj_

/-- `T& MutablePtr<T>::operator*()` (lines 179–183). -/
def MutablePtr.deref {T : Type} (g : MutablePtr) (s : Protected T) : Option T :=
  if g.obj_ then some s.value_ else none

/-- A write through the guard's pointer, e.g. `val->x = 68` or `*val = v`
(using `operator*`, lines 179–183 / `operator->`, lines 185–189): updates the
container payload in place; writing through a null pointer is undefined
behaviour (`none`).  The lock is not touched. -/
def MutablePtr.store {T : Type} (g : MutablePtr) (s : Protected T) (f : T → T) :
    Option (Protected T) :=
  if g.obj_ then some ⟨s.mutex_, f s.value_⟩ else none

/-- `MutablePtr<T>::~MutablePtr()` (lines 161–165): calls `mutex_.unlock()`
UNCONDITIONALLY — the guard's `obj_` is not consulted. -/
def MutablePtr.destroy {T : Type} (_g : MutablePtr) (s : Protected T) : Option (Protected T) :=
  (unlockExclusive s.mutex_).map fun l => ⟨l, s.value_⟩

/-- The `Point` type of the example program and README (`double x = 0;
double y = 0;`); every value occurring in the repository is an exactly
representable integer. -/
structure Point where
  x : Int
  y : Int
deriving DecidableEq

/-- Value-initialization `Point()` zeroes both members (their default member
initializers are `0`). -/
instance : Inhabited Point := ⟨⟨0, 0⟩⟩

/-- One guard operation acting on the container's lock: construction of a
`ConstPtr` (`lock_shared`, lines 91–95), construction of a `MutablePtr`
(`lock`, lines 141–145), destruction of a `ConstPtr` (`unlock_shared`, lines
109–113) or destruction of a `MutablePtr` (`unlock`, lines 161–165). -/
inductive GuardStep : LockState → LockState → Prop
  | constPtrAcq {l l' : LockState} : lockShared l = some l' → GuardStep l l'
  | mutablePtrAcq {l l' : LockState} : lockExclusive l = some l' → GuardStep l l'
  | constPtrRel {l l' : LockState} : unlockShared l = some l' → GuardStep l l'
  | mutablePtrRel {l l' : LockState} : unlockExclusive l = some l' → GuardStep l l'

/-- Lock states reachable from a freshly constructed container by interleaving
guard operations. -/
inductive LockReachable : LockState → Prop
  | init : LockReachable LockState.unlocked
  | step {l l' : LockState} : LockReachable l → GuardStep l l' → LockReachable l'

/-- `ConstPtr` guard values reachable by construction from `getConstPtr` and
by move construction (as move target or move source).  The guard
move-assignment operator (lines 101–107) is omitted: its statement
`mutex_ = &other.mutex_;` assigns a `Mutex*` to a `Mutex`, which is ill-formed
C++ as soon as the member is instantiated, so no compiled program calls it. -/
inductive ConstPtrReach : ConstPtr → Prop
  | fresh : ConstPtrReach ConstPtr.fresh
  | moveTgt {g : ConstPtr} : ConstPtrReach g → ConstPtrReach (ConstPtr.moveCtor g).1
  | moveSrc {g : ConstPtr} : ConstPtrReach g → ConstPtrReach (ConstPtr.moveCtor g).2

/-- `MutablePtr` guard values reachable by construction from `getMutablePtr`
and by move construction; the move-assignment operator (lines 153–159) is
ill-formed when instantiated, exactly as for `ConstPtr`, and is omitted. -/
inductive MutablePtrReach : MutablePtr → Prop
  | fresh : MutablePtrReach MutablePtr.fresh
  | moveTgt {g : MutablePtr} : MutablePtrReach g → MutablePtrReach (MutablePtr.moveCtor g).1
  | moveSrc {g : MutablePtr} : MutablePtrReach g → MutablePtrReach (MutablePtr.moveCtor g).2

/-- Scenario for the guard move contract, `ConstPtr` side: obtain a read guard,
move-construct a second guard from it, then run both destructors (in either
order; here: target first).  The final step attempts a second
`unlock_shared` of a single shared acquisition — undefined behaviour,
modelled as `none`. -/
def c1ConstRun : Option (Protected Point) :=
  let s0 := Protected.ofValue (⟨42, 69⟩ : Point)
  (s0.getConstPtr).bind fun p1 =>
    let moved := ConstPtr.moveCtor p1.1
    (ConstPtr.destroy moved.1 p1.2).bind fun s2 =>
      ConstPtr.destroy moved.2 s2

/-- Scenario for the guard move contract, `MutablePtr` side: same shape with
the exclusive guard; the moved-from guard's destructor still calls
`mutex_.unlock()` unconditionally. -/
def c1MutRun : Option (Protected Point) :=
  let s0 := Protected.ofValue (⟨42, 69⟩ : Point)
  (s0.getMutablePtr).bind fun p1 =>
    let moved := MutablePtr.moveCtor p1.1
    (MutablePtr.destroy moved.1 p1.2).bind fun s2 =>
      MutablePtr.destroy moved.2 s2

/-- The sequential end-to-end scenario of the README and the example program:
construct with `{x:42, y:69}`; `get()`; read through a `ConstPtr` and release
it; obtain a `MutablePtr`, execute `val->x = 68`, release it; `get()` again.
Returns the three observed values (first `get`, guard read, final `get`). -/
def exampleRun : Option (Point × Point × Point) :=
  let s0 := Protected.ofValue (⟨42, 69⟩ : Point)
  (s0.get).bind fun g0 =>
    (g0.2.getConstPtr).bind fun p1 =>
      (ConstPtr.deref p1.1 p1.2).bind fun r0 =>
        (ConstPtr.destroy p1.1 p1.2).bind fun s3 =>
          (s3.getMutablePtr).bind fun p2 =>
            (MutablePtr.store p2.1 p2.2 (fun p => { p with x := 68 })).bind fun s5 =>
              (MutablePtr.destroy p2.1 s5).bind fun s6 =>
                (s6.get).map fun g1 => (g0.1, r0, g1.1)

/-- A `MutablePtr` that has been moved from: source of a move construction
from a fresh guard.  Its `obj_` was swapped to null. -/
def movedFromMutGuard : MutablePtr := (MutablePtr.moveCtor MutablePtr.fresh).2

/-- A `MutablePtr` obtained by move-CONSTRUCTING from the already-null
`movedFromMutGuard`: the swap hands it the null pointer, so it is null from
birth although it has never been a move source itself. -/
def nullBornMutGuard : MutablePtr := (MutablePtr.moveCtor movedFromMutGuard).1

/-!  Theorems.  -/

/-- Claim C1: the spec requires that a moved-from guard evaluates to false and
that its destructor does not release the lock acquisition a second time.  The
code violates both parts: `ConstPtr`'s move constructor leaves the source's
`obj_` non-null, so the moved-from guard still evaluates to true, and both
destructors call the unlock function unconditionally, so destroying the
moved-from guard releases the single acquisition a second time (undefined
behaviour, modelled as `none`).  This theorem evaluates the code at the
failing scenarios. -/
theorem constPtr_moved_from_double_release :
    c1ConstRun = none ∧ c1MutRun = none ∧
    (ConstPtr.moveCtor ConstPtr.fresh).2.boolOp = true ∧
    (MutablePtr.moveCtor MutablePtr.fresh).2.boolOp = false := by
  decide

/-- Claim C2: the sequential end-to-end scenario.  The container built from
`{x:42, y:69}` yields `{42, 69}` from `get()`, `{42, 69}` through a read
guard, and `{68, 69}` from `get()` after `val->x = 68` was performed through
a write guard that has been released.  (The repository as shipped does not
compile — `MutablePtr<T>::operator->` is declared returning `T&` at line 51
but defined returning `T*` at line 186 — so the theorem evaluates the
semantics of the member definitions.) -/
theorem example_run_end_to_end :
    exampleRun = some (⟨42, 69⟩, ⟨42, 69⟩, ⟨68, 69⟩) := by
  decide

/-- Claim C8: the payload transfer written in
`Protected<T>::operator=(Protected&&)` (lines 222–228): after
`a = std::move(b)` the container `a` holds the value `b` held, so `a.get()`
returns it.  (The operator's first statement assigns one `std::shared_mutex`
to another, whose assignment operator is deleted, so the member is ill-formed
C++ as soon as it is instantiated; this theorem evaluates the transfer the
body spells out, at the failing input.) -/
theorem move_assign_transfers_value :
    (Protected.moveAssign (Protected.ofValue (⟨1, 2⟩ : Point))
        (Protected.ofValue ⟨42, 69⟩)).get
      = some (⟨42, 69⟩, Protected.ofValue ⟨42, 69⟩) := by
  decide

/-- Claim C9: a default-constructed `Protected<T>` holds the value-initialized
payload `T()` (member initializer `T value_ = T();`, line 84), so `get()`
returns it. -/
theorem default_ctor_get_default (T : Type) [Inhabited T] :
    (Protected.defaultCtor T).get = some (default, Protected.defaultCtor T) := rfl

/-- Witness for C9 at `T = Point`: `Point()` is `{x:0, y:0}`. -/
theorem default_ctor_get_default_witness :
    (Protected.defaultCtor Point).get
      = some ((⟨0, 0⟩ : Point), Protected.defaultCtor Point) :=
  default_ctor_get_default Point

/-- Claim C6: `set(v)` replaces the payload and succeeds whenever the lock is
available (no live guard): afterwards `get()` returns `v`. -/
theorem set_then_get {T : Type} (s : Protected T) (v : T)
    (h : s.mutex_ = LockState.unlocked) :
    ∃ s', s.set v = some s' ∧ s'.value_ = v ∧ s'.get = some (v, s') := by
  refine ⟨⟨LockState.unlocked, v⟩, ?_, rfl, rfl⟩
  unfold Protected.set
  rw [h]
  rfl

/-- Witness for C6: a concrete container with a free lock, `set {68, 69}`
then `get`. -/
theorem set_then_get_witness :
    (Protected.ofValue (⟨42, 69⟩ : Point)).mutex_ = LockState.unlocked ∧
    ∃ s', (Protected.ofValue (⟨42, 69⟩ : Point)).set ⟨68, 69⟩ = some s' ∧
      s'.value_ = (⟨68, 69⟩ : Point) ∧ s'.get = some ((⟨68, 69⟩ : Point), s') :=
  ⟨rfl, set_then_get (Protected.ofValue ⟨42, 69⟩) ⟨68, 69⟩ rfl⟩

/-- Claim C10: the rvalue overload `set(T&&)` executes `value_ = value;` where
`value` is an lvalue inside the body and no `std::move` is applied, so the
argument is copied, not moved from: the caller gets its object back unchanged
(in particular not in a moved-from state), while the payload now holds the
value. -/
theorem set_rvalue_copies_argument {T : Type} (s : Protected T) (arg : RValArg T)
    (h : s.mutex_ = LockState.unlocked) (hlive : arg.movedOut = false) :
    ∃ s', s.setRval arg = some (s', arg) ∧ s'.value_ = arg.val ∧
      arg.movedOut = false := by
  refine ⟨⟨LockState.unlocked, arg.val⟩, ?_, rfl, hlive⟩
  unfold Protected.setRval
  rw [h]
  rfl

/-- Witness for C10 at a concrete container and argument. -/
theorem set_rvalue_copies_argument_witness :
    (Protected.ofValue (⟨1, 2⟩ : Point)).mutex_ = LockState.unlocked ∧
    (⟨⟨42, 69⟩, false⟩ : RValArg Point).movedOut = false ∧
    ∃ s', (Protected.ofValue (⟨1, 2⟩ : Point)).setRval ⟨⟨42, 69⟩, false⟩
        = some (s', ⟨⟨42, 69⟩, false⟩) ∧
      s'.value_ = (⟨42, 69⟩ : Point) ∧
      (⟨⟨42, 69⟩, false⟩ : RValArg Point).movedOut = false :=
  ⟨rfl, rfl, set_rvalue_copies_argument (Protected.ofValue ⟨1, 2⟩) ⟨⟨42, 69⟩, false⟩ rfl rfl⟩

/-- Claim C4: destroying a guard that has not been moved from performs exactly
one release of the mode it acquired: a `ConstPtr` destructor performs one
`unlock_shared` (the reader count drops by exactly one, the writer flag and
the payload are untouched) and a `MutablePtr` destructor performs one
`unlock` (the writer flag is cleared, the reader count and the payload are
untouched). -/
theorem guard_destructor_releases_mode {T : Type} (g : ConstPtr) (g2 : MutablePtr)
    (s t : Protected T) (_hg : g.movedFrom = false) (_hg2 : g2.movedFrom = false)
    (hr : 0 < s.mutex_.readers) (hw : t.mutex_.writer = true) :
    ConstPtr.destroy g s = some ⟨⟨s.mutex_.readers - 1, s.mutex_.writer⟩, s.value_⟩ ∧
    MutablePtr.destroy g2 t = some ⟨⟨t.mutex_.readers, false⟩, t.value_⟩ := by
  constructor
  · unfold ConstPtr.destroy unlockShared
    rw [if_neg (Nat.pos_iff_ne_zero.mp hr)]
    rfl
  · unfold MutablePtr.destroy unlockExclusive
    rw [if_pos hw]
    rfl

/-- Witness for C4: fresh guards on a reader-held and a writer-held lock. -/
theorem guard_destructor_releases_mode_witness :
    ConstPtr.fresh.movedFrom = false ∧ MutablePtr.fresh.movedFrom = false ∧
    0 < (⟨⟨1, false⟩, (⟨42, 69⟩ : Point)⟩ : Protected Point).mutex_.readers ∧
    (⟨⟨0, true⟩, (⟨42, 69⟩ : Point)⟩ : Protected Point).mutex_.writer = true ∧
    ConstPtr.destroy ConstPtr.fresh (⟨⟨1, false⟩, ⟨42, 69⟩⟩ : Protected Point)
      = some ⟨⟨0, false⟩, ⟨42, 69⟩⟩ ∧
    MutablePtr.destroy MutablePtr.fresh (⟨⟨0, true⟩, ⟨42, 69⟩⟩ : Protected Point)
      = some ⟨⟨0, false⟩, ⟨42, 69⟩⟩ := by
  have h := guard_destructor_releases_mode (T := Point) ConstPtr.fresh MutablePtr.fresh
    ⟨⟨1, false⟩, ⟨42, 69⟩⟩ ⟨⟨0, true⟩, ⟨42, 69⟩⟩ rfl rfl (by decide) rfl
  exact ⟨rfl, rfl, by decide, rfl, h.1, h.2⟩

/-- Claim C5: the copy returned by `get()` is independent of the container:
it equals the payload at the time of the `get`, and a later `set v` (or a
later write through a `MutablePtr`) changes only the container, never the
previously returned copy — if `v` differs from the copy, the container's
payload now differs from the copy. -/
theorem fetched_copy_independent {T : Type} (s s1 s2 : Protected T) (v c : T)
    (hget : s.get = some (c, s1)) (hset : s1.set v = some s2) :
    c = s.value_ ∧ s2.value_ = v ∧ (v ≠ c → s2.value_ ≠ c) ∧
    (∀ (g : MutablePtr) (f : T → T) (s3 : Protected T),
      MutablePtr.store g s2 f = some s3 → s3.value_ = f v) := by
  have hc : c = s.value_ := by
    unfold Protected.get at hget
    cases hl1 : lockShared s.mutex_ with
    | none => rw [hl1] at hget; simp at hget
    | some l1 =>
      rw [hl1] at hget
      simp only [Option.some_bind] at hget
      cases hl2 : unlockShared l1 with
      | none => rw [hl2] at hget; simp at hget
      | some l2 =>
        rw [hl2] at hget
        simp only [Option.map_some', Option.some.injEq, Prod.mk.injEq] at hget
        exact hget.1.symm
  have hv : s2.value_ = v := by
    unfold Protected.set at hset
    cases hl1 : lockExclusive s1.mutex_ with
    | none => rw [hl1] at hset; simp at hset
    | some l1 =>
      rw [hl1] at hset
      simp only [Option.some_bind] at hset
      cases hl2 : unlockExclusive l1 with
      | none => rw [hl2] at hset; simp at hset
      | some l2 =>
        rw [hl2] at hset
        simp only [Option.map_some', Option.some.injEq] at hset
        rw [← hset]
  refine ⟨hc, hv, ?_, ?_⟩
  · intro hne hcontra
    rw [hv] at hcontra
    exact hne hcontra
  · intro g f s3 hst
    unfold MutablePtr.store at hst
    split at hst
    · simp only [Option.some.injEq] at hst
      rw [← hst, hv]
    · simp at hst

/-- Witness for C5: a concrete `get` followed by a concrete `set`. -/
theorem fetched_copy_independent_witness :
    (Protected.ofValue (⟨42, 69⟩ : Point)).get
      = some (⟨42, 69⟩, Protected.ofValue ⟨42, 69⟩) ∧
    (Protected.ofValue (⟨42, 69⟩ : Point)).set ⟨68, 69⟩
      = some ⟨LockState.unlocked, ⟨68, 69⟩⟩ ∧
    (⟨42, 69⟩ : Point) = (Protected.ofValue (⟨42, 69⟩ : Point)).value_ ∧
    (⟨LockState.unlocked, (⟨68, 69⟩ : Point)⟩ : Protected Point).value_ = ⟨68, 69⟩ ∧
    ((⟨68, 69⟩ : Point) ≠ ⟨42, 69⟩ →
      (⟨LockState.unlocked, (⟨68, 69⟩ : Point)⟩ : Protected Point).value_ ≠ ⟨42, 69⟩) := by
  have h := fetched_copy_independent (Protected.ofValue (⟨42, 69⟩ : Point))
    (Protected.ofValue ⟨42, 69⟩) ⟨LockState.unlocked, ⟨68, 69⟩⟩ ⟨68, 69⟩ ⟨42, 69⟩ rfl rfl
  exact ⟨rfl, rfl, h.1, h.2.1, h.2.2.1⟩

/-- Guard operations preserve the reader-writer exclusion invariant of
`std::shared_mutex`: whenever a writer holds the lock, no reader does. -/
theorem guardStep_preserves_excl {l l' : LockState} (hs : GuardStep l l')
    (ih : l.writer = true → l.readers = 0) : l'.writer = true → l'.readers = 0 := by
  cases hs with
  | constPtrAcq he =>
    unfold lockShared at he
    split at he
    · simp at he
    · next hw =>
      simp only [Option.some.injEq] at he
      rw [← he]
      intro hw2
      exact absurd hw2 hw
  | mutablePtrAcq he =>
    unfold lockExclusive at he
    split at he
    · simp at he
    · next hcond =>
      push_neg at hcond
      simp only [Option.some.injEq] at he
      rw [← he]
      intro _
      exact hcond.2
  | constPtrRel he =>
    unfold unlockShared at he
    split at he
    · simp at he
    · next hne =>
      simp only [Option.some.injEq] at he
      rw [← he]
      intro hw2
      exact absurd (ih hw2) hne
  | mutablePtrRel he =>
    unfold unlockExclusive at he
    split at he
    · simp only [Option.some.injEq] at he
      rw [← he]
      intro hw2
      simp at hw2
    · simp at he

/-- In every reachable lock state, a writer excludes all readers. -/
theorem lockReachable_writer_no_readers {l : LockState} (h : LockReachable l) :
    l.writer = true → l.readers = 0 := by
  induction h with
  | init => intro hw; exact absurd hw (by decide)
  | step _ hs ih => exact guardStep_preserves_excl hs ih

/-- Claim C3: in every lock state reachable by interleaving guard operations
on one container, a `MutablePtr` acquisition cannot complete while any live
`ConstPtr` holds a shared acquisition (`getMutablePtr` blocks, modelled as
`none`), and a live writer and a live reader never coexist. -/
theorem no_writer_while_readers {T : Type} (s : Protected T)
    (h : LockReachable s.mutex_) :
    (0 < s.mutex_.readers → s.getMutablePtr = none) ∧
    (s.mutex_.writer = true → s.mutex_.readers = 0) := by
  refine ⟨?_, lockReachable_writer_no_readers h⟩
  intro hr
  unfold Protected.getMutablePtr lockExclusive
  rw [if_pos (Or.inr (Nat.pos_iff_ne_zero.mp hr))]
  rfl

/-- Witness for C3: a container whose lock is held by one reader, reached by a
`ConstPtr` construction from the initial state. -/
theorem no_writer_while_readers_witness :
    LockReachable (⟨⟨1, false⟩, (⟨42, 69⟩ : Point)⟩ : Protected Point).mutex_ ∧
    0 < (⟨⟨1, false⟩, (⟨42, 69⟩ : Point)⟩ : Protected Point).mutex_.readers ∧
    (⟨⟨1, false⟩, (⟨42, 69⟩ : Point)⟩ : Protected Point).getMutablePtr = none := by
  have hreach : LockReachable ⟨1, false⟩ :=
    LockReachable.step LockReachable.init (GuardStep.constPtrAcq (by decide))
  exact ⟨hreach, by decide,
    (no_writer_while_readers (⟨⟨1, false⟩, ⟨42, 69⟩⟩ : Protected Point) hreach).1 (by decide)⟩

/-- Claim C7 counterexample: the claim states that a guard evaluates to false
only after being moved from.  The concrete reachable guard
`nullBornMutGuard` — obtained by move-CONSTRUCTING from an already
moved-from (hence null) `MutablePtr` — evaluates to false although it has
never been a move source itself. -/
theorem null_guard_not_moved_from_cex :
    MutablePtrReach nullBornMutGuard ∧
    nullBornMutGuard.boolOp = false ∧ nullBornMutGuard.movedFrom = false :=
  ⟨MutablePtrReach.moveTgt (MutablePtrReach.moveSrc MutablePtrReach.fresh),
   by decide, by decide⟩

/-- Claim C7 (amended): a guard freshly returned by `getConstPtr` /
`getMutablePtr` always evaluates to true (construction never produces a
null-but-locked guard); every reachable `ConstPtr` evaluates to true (in
particular a guard never becomes false without a move); and a reachable
`MutablePtr` evaluates to false only after being moved from or when it was
produced by move construction from an already-null guard. -/
theorem guard_bool_amended :
    (∀ (T : Type) (s s' : Protected T) (g : ConstPtr),
      s.getConstPtr = some (g, s') → g.boolOp = true) ∧
    (∀ (T : Type) (s s' : Protected T) (g : MutablePtr),
      s.getMutablePtr = some (g, s') → g.boolOp = true) ∧
    (∀ g : ConstPtr, ConstPtrReach g → g.boolOp = true) ∧
    (∀ g : MutablePtr, MutablePtrReach g →
      g.boolOp = false → (g.movedFrom = true ∨ g.bornNull = true)) := by
  refine ⟨?_, ?_, ?_, ?_⟩
  · intro T s s' g h
    unfold Protected.getConstPtr at h
    cases hl : lockShared s.mutex_ with
    | none => rw [hl] at h; simp at h
    | some l1 =>
      rw [hl] at h
      simp only [Option.map_some', Option.some.injEq, Prod.mk.injEq] at h
      rw [← h.1]
      rfl
  · intro T s s' g h
    unfold Protected.getMutablePtr at h
    cases hl : lockExclusive s.mutex_ with
    | none => rw [hl] at h; simp at h
    | some l1 =>
      rw [hl] at h
      simp only [Option.map_some', Option.some.injEq, Prod.mk.injEq] at h
      rw [← h.1]
      rfl
  · intro g h
    induction h with
    | fresh => rfl
    | moveTgt _ ih =>
      simp only [ConstPtr.boolOp, ConstPtr.moveCtor] at ih ⊢
      exact ih
    | moveSrc _ ih =>
      simp only [ConstPtr.boolOp, ConstPtr.moveCtor] at ih ⊢
      exact ih
  · intro g h
    induction h with
    | fresh => intro hb; exact absurd hb (by decide)
    | moveTgt _ _ =>
      intro hb
      right
      simp only [MutablePtr.boolOp, MutablePtr.moveCtor] at hb ⊢
      rw [hb]
      rfl
    | moveSrc _ _ =>
      intro _
      left
      rfl

/-- Witness for C7 (amended): a freshly obtained `ConstPtr` at a reachable
application, and the moved-from `MutablePtr`, which is null and is accounted
for by the `movedFrom` disjunct. -/
theorem guard_bool_amended_witness :
    (Protected.ofValue (⟨42, 69⟩ : Point)).getConstPtr
      = some (ConstPtr.fresh, ⟨⟨1, false⟩, ⟨42, 69⟩⟩) ∧
    ConstPtr.fresh.boolOp = true ∧
    MutablePtrReach movedFromMutGuard ∧
    movedFromMutGuard.boolOp = false ∧
    (movedFromMutGuard.movedFrom = true ∨ movedFromMutGuard.bornNull = true) :=
  ⟨rfl,
   guard_bool_amended.1 Point (Protected.ofValue ⟨42, 69⟩) ⟨⟨1, false⟩, ⟨42, 69⟩⟩
     ConstPtr.fresh rfl,
   MutablePtrReach.moveSrc MutablePtrReach.fresh,
   by decide,
   guard_bool_amended.2.2.2 movedFromMutGuard
     (MutablePtrReach.moveSrc MutablePtrReach.fresh) (by decide)⟩

end ProtectedValue
